import Mathlib

/-!
Verification of the releaseguard evaluation engine
(`releaseguard/engine/rules.py` and `releaseguard/engine/scoring.py`)
against its natural-language specification.

Numeric values are modelled as rationals (`ℚ`); Python dictionaries of
configuration values are modelled as association lists, and a failing
dictionary lookup (Python `KeyError`) is modelled by `Except String`,
the error carrying the missing key.  The process-wide `settings` object
read by `evaluate_release` is passed explicitly as a `Settings` value.
-/

namespace ReleaseGuard

/-- Types of signals that can be ingested (`SignalType` in `db/models.py`). -/
inductive SignalType where
  | TEST
  | COVERAGE
  | PERF
  | CANARY
  | DEP
deriving DecidableEq, Repr

/-- Possible evaluation decisions (`Decision` in `db/models.py`). -/
inductive Decision where
  | APPROVE
  | WARN
  | BLOCK
deriving DecidableEq, Repr

/-- Severity level of a rule violation (`Severity` in `engine/rules.py`). -/
inductive Severity where
  | BLOCK
  | WARN
  | INFO
deriving DecidableEq, Repr

/-- A signal (`Signal` in `db/models.py`), restricted to the fields the engine
reads: `type`, `name` and the optional numeric value `value_num`.  The
database bookkeeping fields (ids, text value, metadata, timestamps) are never
consulted by the evaluation engine and are omitted. -/
structure Signal where
  type : SignalType
  name : String
  value_num : Option ℚ
deriving DecidableEq, Repr

/-- Result of evaluating a single rule (`RuleResult` in `engine/rules.py`).
The `message` field of the source is a rendered human-readable string; its
exact wording is declared not load-bearing by the spec (§4.2), so it is
modelled as the rule identifier. -/
structure RuleResult where
  rule : String
  severity : Severity
  observed : ℚ
  limit : ℚ
  message : String
  passed : Bool
deriving DecidableEq, Repr

/-- Result of evaluating a release (`EvaluationResult` in `engine/scoring.py`). -/
structure EvaluationResult where
  decision : Decision
  risk_score : ℚ
  rationale : List RuleResult
deriving DecidableEq, Repr

/-- Process-wide scoring settings (`Settings` in `config.py`). -/
structure Settings where
  approve_threshold : ℚ
  warn_threshold : ℚ
deriving DecidableEq, Repr

/-- The default settings: `approve_threshold = 30.0`, `warn_threshold = 60.0`. -/
def defaultSettings : Settings := ⟨30, 60⟩

/-- A Python `dict` of numeric configuration values, as an association list. -/
abbrev Dict : Type := List (String × ℚ)

/-- First-match association-list lookup (Python `key in` order semantics:
`dict` lookup finds the unique binding; first-match on an association list). -/
def dictFind : Dict → String → Option ℚ
  | [], _ => none
  | (k, v) :: rest, key => if k = key then some v else dictFind rest key

/-- Python subscript `d[key]`: the value, or a `KeyError` carrying the key. -/
def dictGet (d : Dict) (key : String) : Except String ℚ :=
  match dictFind d key with
  | some v => Except.ok v
  | none => Except.error key

/-- Python `a or b` applied to an optional dictionary: `None` and the empty
dictionary are falsy, so both fall back to the default. -/
def orDefault (o : Option Dict) (d : Dict) : Dict :=
  match o with
  | none => d
  | some m => if m = [] then d else m

/-- Default thresholds for hard gates (`DEFAULT_THRESHOLDS` in
`engine/rules.py`). -/
def DEFAULT_THRESHOLDS : Dict :=
  [("e2e_pass_rate_min", 0.98),
   ("integration_pass_rate_min", 0.95),
   ("unit_pass_rate_min", 0.95),
   ("total_tests_min", 1),
   ("line_coverage_min", 0.70),
   ("coverage_drop_max", 0.02),
   ("p95_regression_max", 0.15),
   ("error_rate_max", 0.01),
   ("canary_5xx_rate_max", 0.01)]

/-- Category weights for the weighted risk score (`DEFAULT_WEIGHTS` in
`engine/scoring.py`). -/
def DEFAULT_WEIGHTS : Dict :=
  [("tests", 0.35),
   ("coverage", 0.10),
   ("perf", 0.25),
   ("canary", 0.25),
   ("deps", 0.05)]

/-- Get the numeric value of a signal by type and name
(`get_signal_value` in `engine/rules.py`): the `value_num` of the first
signal whose type and name both match, which may itself be `none`. -/
def get_signal_value (signals : List Signal) (ty : SignalType) (name : String) :
    Option ℚ :=
  match signals with
  | [] => none
  | s :: rest =>
      if s.type = ty ∧ s.name = name then s.value_num
      else get_signal_value rest ty name

/-- The e2e-pass-rate block of `evaluate_hard_gates`. -/
def checkE2ePassRate (signals : List Signal) (t : Dict) :
    Except String (List RuleResult) :=
  match get_signal_value signals SignalType.TEST "e2e_pass_rate" with
  | none => pure []
  | some v => do
      let lim ← dictGet t "e2e_pass_rate_min"
      let passed := decide (lim ≤ v)
      pure [RuleResult.mk "E2E_PASS_RATE"
        (if passed then Severity.INFO else Severity.BLOCK)
        v lim "E2E_PASS_RATE" passed]

/-- The integration-pass-rate block of `evaluate_hard_gates`. -/
def checkIntegrationPassRate (signals : List Signal) (t : Dict) :
    Except String (List RuleResult) :=
  match get_signal_value signals SignalType.TEST "integration_pass_rate" with
  | none => pure []
  | some v => do
      let lim ← dictGet t "integration_pass_rate_min"
      let passed := decide (lim ≤ v)
      pure [RuleResult.mk "INTEGRATION_PASS_RATE"
        (if passed then Severity.INFO else Severity.BLOCK)
        v lim "INTEGRATION_PASS_RATE" passed]

/-- The unit-pass-rate block of `evaluate_hard_gates`. -/
def checkUnitPassRate (signals : List Signal) (t : Dict) :
    Except String (List RuleResult) :=
  match get_signal_value signals SignalType.TEST "unit_pass_rate" with
  | none => pure []
  | some v => do
      let lim ← dictGet t "unit_pass_rate_min"
      let passed := decide (lim ≤ v)
      pure [RuleResult.mk "UNIT_PASS_RATE"
        (if passed then Severity.INFO else Severity.BLOCK)
        v lim "UNIT_PASS_RATE" passed]

/-- The total-tests block of `evaluate_hard_gates`. -/
def checkTotalTests (signals : List Signal) (t : Dict) :
    Except String (List RuleResult) :=
  match get_signal_value signals SignalType.TEST "total_tests" with
  | none => pure []
  | some v => do
      let lim ← dictGet t "total_tests_min"
      let passed := decide (lim ≤ v)
      pure [RuleResult.mk "TOTAL_TESTS"
        (if passed then Severity.INFO else Severity.BLOCK)
        v lim "TOTAL_TESTS" passed]

/-- The line-coverage block of `evaluate_hard_gates`. -/
def checkLineCoverage (signals : List Signal) (t : Dict) :
    Except String (List RuleResult) :=
  match get_signal_value signals SignalType.COVERAGE "line_coverage" with
  | none => pure []
  | some v => do
      let lim ← dictGet t "line_coverage_min"
      let passed := decide (lim ≤ v)
      pure [RuleResult.mk "LINE_COVERAGE"
        (if passed then Severity.INFO else Severity.WARN)
        v lim "LINE_COVERAGE" passed]

/-- The coverage-drop block of `evaluate_hard_gates`. -/
def checkCoverageDrop (signals : List Signal) (t : Dict) :
    Except String (List RuleResult) :=
  match get_signal_value signals SignalType.COVERAGE "coverage_drop" with
  | none => pure []
  | some v => do
      let lim ← dictGet t "coverage_drop_max"
      let passed := decide (v ≤ lim)
      pure [RuleResult.mk "COVERAGE_DROP"
        (if passed then Severity.INFO else Severity.WARN)
        v lim "COVERAGE_DROP" passed]

/-- The p95-regression block of `evaluate_performance_gates`. -/
def checkP95Regression (signals : List Signal) (t : Dict) :
    Except String (List RuleResult) :=
  match get_signal_value signals SignalType.PERF "p95_regression" with
  | none => pure []
  | some v => do
      let lim ← dictGet t "p95_regression_max"
      let passed := decide (v ≤ lim)
      pure [RuleResult.mk "P95_REGRESSION"
        (if passed then Severity.INFO else Severity.BLOCK)
        v lim "P95_REGRESSION" passed]

/-- The error-rate block of `evaluate_performance_gates`. -/
def checkErrorRate (signals : List Signal) (t : Dict) :
    Except String (List RuleResult) :=
  match get_signal_value signals SignalType.PERF "error_rate" with
  | none => pure []
  | some v => do
      let lim ← dictGet t "error_rate_max"
      let passed := decide (v ≤ lim)
      pure [RuleResult.mk "ERROR_RATE"
        (if passed then Severity.INFO else Severity.BLOCK)
        v lim "ERROR_RATE" passed]

/-- The canary-5xx-rate block of `evaluate_canary_gates`. -/
def checkCanary5xxRate (signals : List Signal) (t : Dict) :
    Except String (List RuleResult) :=
  match get_signal_value signals SignalType.CANARY "5xx_rate" with
  | none => pure []
  | some v => do
      let lim ← dictGet t "canary_5xx_rate_max"
      let passed := decide (v ≤ lim)
      pure [RuleResult.mk "CANARY_5XX_RATE"
        (if passed then Severity.INFO else Severity.BLOCK)
        v lim "CANARY_5XX_RATE" passed]

/-- Evaluate hard gate rules that can immediately block a release
(`evaluate_hard_gates` in `engine/rules.py`); the six sequential check
blocks of the source are the named `check…` definitions above. -/
def evaluate_hard_gates (signals : List Signal) (thresholds : Option Dict) :
    Except String (List RuleResult) := do
  let t := orDefault thresholds DEFAULT_THRESHOLDS
  let r1 ← checkE2ePassRate signals t
  let r2 ← checkIntegrationPassRate signals t
  let r3 ← checkUnitPassRate signals t
  let r4 ← checkTotalTests signals t
  let r5 ← checkLineCoverage signals t
  let r6 ← checkCoverageDrop signals t
  pure (r1 ++ r2 ++ r3 ++ r4 ++ r5 ++ r6)

/-- Evaluate performance-related rules (`evaluate_performance_gates` in
`engine/rules.py`). -/
def evaluate_performance_gates (signals : List Signal) (thresholds : Option Dict) :
    Except String (List RuleResult) := do
  let t := orDefault thresholds DEFAULT_THRESHOLDS
  let r1 ← checkP95Regression signals t
  let r2 ← checkErrorRate signals t
  pure (r1 ++ r2)

/-- Evaluate canary health rules (`evaluate_canary_gates` in
`engine/rules.py`). -/
def evaluate_canary_gates (signals : List Signal) (thresholds : Option Dict) :
    Except String (List RuleResult) := do
  let t := orDefault thresholds DEFAULT_THRESHOLDS
  let r1 ← checkCanary5xxRate signals t
  pure r1

/-- Python `max` over a non-empty list; the `[]` case is unreachable behind
the emptiness guards in the scoring functions. -/
def pyMax : List ℚ → ℚ
  | [] => 0
  | x :: xs => xs.foldl max x

/-- One conditional `risks.append(f(value))` block of the risk functions: an
absent signal contributes no term, a present one contributes exactly `f v`. -/
def optTerm (o : Option ℚ) (f : ℚ → ℚ) : List ℚ :=
  match o with
  | none => []
  | some v => [f v]

@[simp]
theorem optTerm_none (f : ℚ → ℚ) : optTerm none f = [] := rfl

@[simp]
theorem optTerm_some (v : ℚ) (f : ℚ → ℚ) : optTerm (some v) f = [f v] := rfl

/-- Compute risk score for test signals (`compute_test_risk` in
`engine/scoring.py`). -/
def compute_test_risk (signals : List Signal) : ℚ :=
  let risks : List ℚ := []
  let risks := risks ++
    optTerm (get_signal_value signals SignalType.TEST "unit_pass_rate")
      (fun v => 1 - v)
  let risks := risks ++
    optTerm (get_signal_value signals SignalType.TEST "integration_pass_rate")
      (fun v => 1 - v)
  let risks := risks ++
    optTerm (get_signal_value signals SignalType.TEST "e2e_pass_rate")
      (fun v => (1 - v) * 1.5)
  let risks := risks ++
    optTerm (get_signal_value signals SignalType.TEST "flaky_rate")
      (fun v => v * 0.5)
  if risks = [] then 0
  else min 1 (risks.sum / (risks.length : ℚ))

/-- Compute risk score for coverage signals (`compute_coverage_risk` in
`engine/scoring.py`). -/
def compute_coverage_risk (signals : List Signal) : ℚ :=
  let risks : List ℚ := []
  let risks := risks ++
    optTerm (get_signal_value signals SignalType.COVERAGE "line_coverage")
      (fun v => 1 - v)
  let risks := risks ++
    optTerm (get_signal_value signals SignalType.COVERAGE "coverage_drop")
      (fun v => min 1 (v * 10))
  if risks = [] then 0
  else min 1 (pyMax risks)

/-- Compute risk score for performance signals (`compute_perf_risk` in
`engine/scoring.py`). -/
def compute_perf_risk (signals : List Signal) : ℚ :=
  let risks : List ℚ := []
  let risks := risks ++
    optTerm (get_signal_value signals SignalType.PERF "p95_regression")
      (fun v => min 1 (v / 0.15))
  let risks := risks ++
    optTerm (get_signal_value signals SignalType.PERF "error_rate")
      (fun v => min 1 (v / 0.01))
  if risks = [] then 0
  else min 1 (pyMax risks)

/-- Compute risk score for canary signals (`compute_canary_risk` in
`engine/scoring.py`). -/
def compute_canary_risk (signals : List Signal) : ℚ :=
  let risks : List ℚ := []
  let risks := risks ++
    optTerm (get_signal_value signals SignalType.CANARY "5xx_rate")
      (fun v => min 1 (v / 0.01))
  let risks := risks ++
    optTerm (get_signal_value signals SignalType.CANARY "p95_regression")
      (fun v => min 1 (v / 0.15))
  if risks = [] then 0
  else min 1 (pyMax risks)

/-- Compute the overall weighted risk score, 0 to 100
(`compute_weighted_risk_score` in `engine/scoring.py`). -/
def compute_weighted_risk_score (signals : List Signal) (weights : Option Dict) :
    Except String ℚ := do
  let w := orDefault weights DEFAULT_WEIGHTS
  let test_risk := compute_test_risk signals
  let coverage_risk := compute_coverage_risk signals
  let perf_risk := compute_perf_risk signals
  let canary_risk := compute_canary_risk signals
  let wt ← dictGet w "tests"
  let wc ← dictGet w "coverage"
  let wp ← dictGet w "perf"
  let wk ← dictGet w "canary"
  let weighted_score :=
    wt * test_risk + wc * coverage_risk + wp * perf_risk + wk * canary_risk
  pure (weighted_score * 100)

/-- Evaluate a release based on its signals (`evaluate_release` in
`engine/scoring.py`); the process-wide `settings` are passed explicitly. -/
def evaluate_release (signals : List Signal) (thresholds : Option Dict)
    (weights : Option Dict) (st : Settings) : Except String EvaluationResult := do
  let r1 ← evaluate_hard_gates signals thresholds
  let r2 ← evaluate_performance_gates signals thresholds
  let r3 ← evaluate_canary_gates signals thresholds
  let all_results := r1 ++ r2 ++ r3
  let has_block := all_results.any fun r =>
    decide (r.severity = Severity.BLOCK) && !r.passed
  let has_warn := all_results.any fun r =>
    decide (r.severity = Severity.WARN) && !r.passed
  let risk_score ← compute_weighted_risk_score signals weights
  let decision :=
    if has_block then Decision.BLOCK
    else if has_warn || decide (st.warn_threshold ≤ risk_score) then Decision.WARN
    else if st.approve_threshold ≤ risk_score then Decision.WARN
    else Decision.APPROVE
  let decision :=
    if st.warn_threshold ≤ risk_score then Decision.BLOCK else decision
  pure (EvaluationResult.mk decision risk_score all_results)

/-! Helper lemmas about the `Except` monad and the dictionary model. -/

@[simp]
theorem okBind {α β : Type} (a : α) (f : α → Except String β) :
    (Except.ok a : Except String α) >>= f = f a := rfl

@[simp]
theorem errorBind {α β : Type} (e : String) (f : α → Except String β) :
    (Except.error e : Except String α) >>= f = Except.error e := rfl

@[simp]
theorem mapOk {α β : Type} (a : α) (f : α → β) :
    f <$> (Except.ok a : Except String α) = Except.ok (f a) := rfl

@[simp]
theorem mapError {α β : Type} (e : String) (f : α → β) :
    f <$> (Except.error e : Except String α) = Except.error e := rfl

@[simp]
theorem pureExcept {α : Type} (a : α) :
    (pure a : Except String α) = Except.ok a := rfl

theorem dictGet_eq_ok {d : Dict} {key : String} {v : ℚ}
    (h : dictFind d key = some v) : dictGet d key = Except.ok v := by
  simp [dictGet, h]

theorem dictGet_eq_error {d : Dict} {key : String}
    (h : dictFind d key = none) : dictGet d key = Except.error key := by
  simp [dictGet, h]

theorem dictFind_ne_nil {d : Dict} {key : String} {v : ℚ}
    (h : dictFind d key = some v) : d ≠ [] := by
  intro hd
  subst hd
  simp [dictFind] at h

theorem orDefault_some {m d : Dict} (h : m ≠ []) :
    orDefault (some m) d = m := by
  simp [orDefault, h]

/-- The decision policy of spec §4.5, stated as written: four tiers applied in
precedence order, first match wins.  Tier 1: `risk_score ≥ warn_threshold`
gives BLOCK regardless of gate outcomes; tier 2: a failed BLOCK-severity rule
gives BLOCK; tier 3: a failed WARN-severity rule or
`risk_score ≥ approve_threshold` gives WARN; tier 4: APPROVE. -/
def policyDecision (results : List RuleResult) (risk : ℚ) (st : Settings) :
    Decision :=
  if st.warn_threshold ≤ risk then Decision.BLOCK
  else if results.any (fun r => decide (r.severity = Severity.BLOCK) && !r.passed)
    then Decision.BLOCK
  else if (results.any fun r => decide (r.severity = Severity.WARN) && !r.passed)
      || decide (st.approve_threshold ≤ risk)
    then Decision.WARN
  else Decision.APPROVE

/-- C1: whenever the three gate evaluators and the weighted score succeed,
`evaluate_release` returns exactly the four-tier precedence decision of §4.5
over the concatenated rule results and the risk score, together with that
score and rationale. -/
theorem evaluate_release_four_tier (signals : List Signal)
    (thresholds weights : Option Dict) (st : Settings)
    (r1 r2 r3 : List RuleResult) (score : ℚ)
    (h1 : evaluate_hard_gates signals thresholds = Except.ok r1)
    (h2 : evaluate_performance_gates signals thresholds = Except.ok r2)
    (h3 : evaluate_canary_gates signals thresholds = Except.ok r3)
    (h4 : compute_weighted_risk_score signals weights = Except.ok score) :
    evaluate_release signals thresholds weights st =
      Except.ok (EvaluationResult.mk
        (policyDecision (r1 ++ r2 ++ r3) score st) score (r1 ++ r2 ++ r3)) := by
  simp only [evaluate_release, h1, h2, h3, h4, okBind, pureExcept]
  congr 1
  by_cases hW : st.warn_threshold ≤ score
  · simp [policyDecision, hW]
  · simp only [policyDecision, if_neg hW, decide_eq_false hW, Bool.or_false]
    cases hb : (r1 ++ r2 ++ r3).any
        (fun r => decide (r.severity = Severity.BLOCK) && !r.passed)
    · cases hw : (r1 ++ r2 ++ r3).any
          (fun r => decide (r.severity = Severity.WARN) && !r.passed)
      · by_cases hA : st.approve_threshold ≤ score <;> simp [hA]
      · simp
    · simp

/-- Witness for C1 at a concrete input: a single failing e2e pass-rate signal
under default configuration. -/
theorem evaluate_release_four_tier_witness :
    evaluate_release [Signal.mk SignalType.TEST "e2e_pass_rate" (some (1/2))]
        none none defaultSettings =
      Except.ok (EvaluationResult.mk
        (policyDecision
          [RuleResult.mk "E2E_PASS_RATE" Severity.BLOCK (1/2) 0.98
            "E2E_PASS_RATE" false] (105/4) defaultSettings)
        (105/4)
        [RuleResult.mk "E2E_PASS_RATE" Severity.BLOCK (1/2) 0.98
          "E2E_PASS_RATE" false]) := by
  have h := evaluate_release_four_tier
    [Signal.mk SignalType.TEST "e2e_pass_rate" (some (1/2))] none none
    defaultSettings
    [RuleResult.mk "E2E_PASS_RATE" Severity.BLOCK (1/2) 0.98
      "E2E_PASS_RATE" false] [] [] (105/4)
    (by simp +decide [evaluate_hard_gates, checkE2ePassRate,
      checkIntegrationPassRate, checkUnitPassRate, checkTotalTests,
      checkLineCoverage, checkCoverageDrop, get_signal_value, orDefault,
      DEFAULT_THRESHOLDS, dictGet, dictFind] ; norm_num)
    (by simp +decide [evaluate_performance_gates, checkP95Regression,
      checkErrorRate, get_signal_value, orDefault,
      DEFAULT_THRESHOLDS, dictGet, dictFind])
    (by simp +decide [evaluate_canary_gates, checkCanary5xxRate,
      get_signal_value, orDefault, DEFAULT_THRESHOLDS, dictGet, dictFind])
    (by simp +decide [compute_weighted_risk_score, compute_test_risk,
      compute_coverage_risk, compute_perf_risk, compute_canary_risk,
      get_signal_value, orDefault, DEFAULT_WEIGHTS, dictGet, dictFind] ; norm_num)
  simpa using h

/-- Commuting lemma: a gate branch whose two arms are `Except.ok` equals
`Except.ok` of the branch on the arms. -/
theorem matchBranchOk (o : Option ℚ) (g : ℚ → List RuleResult) :
    (match o with
     | none => (Except.ok [] : Except String (List RuleResult))
     | some v => Except.ok (g v)) =
      Except.ok (match o with | none => [] | some v => g v) := by
  cases o <;> rfl

/-- The combined rule results of the three gate evaluators, concatenated in
the order `evaluate_release` collects them. -/
def allGateResults (signals : List Signal) (thresholds : Option Dict) :
    Except String (List RuleResult) := do
  let r1 ← evaluate_hard_gates signals thresholds
  let r2 ← evaluate_performance_gates signals thresholds
  let r3 ← evaluate_canary_gates signals thresholds
  pure (r1 ++ r2 ++ r3)

/-- One row of the check catalogue of spec §4.2: rule id, required signal,
threshold key, comparison direction (`passGe = true` means the check passes
when `observed ≥ limit`, otherwise when `observed ≤ limit`) and the severity
recorded on failure. -/
structure GateCheck where
  rule : String
  sigType : SignalType
  sigName : String
  key : String
  passGe : Bool
  failSeverity : Severity

/-- The fixed, ordered check catalogue of spec §4.2. -/
def gateCatalog : List GateCheck :=
  [GateCheck.mk "E2E_PASS_RATE" SignalType.TEST "e2e_pass_rate"
    "e2e_pass_rate_min" true Severity.BLOCK,
   GateCheck.mk "INTEGRATION_PASS_RATE" SignalType.TEST "integration_pass_rate"
    "integration_pass_rate_min" true Severity.BLOCK,
   GateCheck.mk "UNIT_PASS_RATE" SignalType.TEST "unit_pass_rate"
    "unit_pass_rate_min" true Severity.BLOCK,
   GateCheck.mk "TOTAL_TESTS" SignalType.TEST "total_tests"
    "total_tests_min" true Severity.BLOCK,
   GateCheck.mk "LINE_COVERAGE" SignalType.COVERAGE "line_coverage"
    "line_coverage_min" true Severity.WARN,
   GateCheck.mk "COVERAGE_DROP" SignalType.COVERAGE "coverage_drop"
    "coverage_drop_max" false Severity.WARN,
   GateCheck.mk "P95_REGRESSION" SignalType.PERF "p95_regression"
    "p95_regression_max" false Severity.BLOCK,
   GateCheck.mk "ERROR_RATE" SignalType.PERF "error_rate"
    "error_rate_max" false Severity.BLOCK,
   GateCheck.mk "CANARY_5XX_RATE" SignalType.CANARY "5xx_rate"
    "canary_5xx_rate_max" false Severity.BLOCK]

/-- Declarative evaluation of one catalogue row against a total threshold
assignment `T`, as the spec words it: an absent signal emits nothing; a
present signal emits exactly one result, severity `INFO` on pass and the
row's on-fail severity on failure. -/
def runCheckTotal (signals : List Signal) (T : String → ℚ) (c : GateCheck) :
    List RuleResult :=
  match get_signal_value signals c.sigType c.sigName with
  | none => []
  | some v =>
      let lim := T c.key
      let passed := if c.passGe then decide (lim ≤ v) else decide (v ≤ lim)
      [RuleResult.mk c.rule (if passed then Severity.INFO else c.failSeverity)
        v lim c.rule passed]

/-- The whole catalogue of spec §4.2 evaluated declaratively, in order. -/
def specGatesTotal (signals : List Signal) (T : String → ℚ) : List RuleResult :=
  (gateCatalog.map (runCheckTotal signals T)).flatten

/-- The nine required threshold keys of spec §3. -/
def requiredThresholdKeys : List String :=
  ["e2e_pass_rate_min", "integration_pass_rate_min", "unit_pass_rate_min",
   "total_tests_min", "line_coverage_min", "coverage_drop_max",
   "p95_regression_max", "error_rate_max", "canary_5xx_rate_max"]

theorem checkE2ePassRate_total (signals : List Signal) (t : Dict) (T : String → ℚ)
    (h : dictFind t "e2e_pass_rate_min" = some (T "e2e_pass_rate_min")) :
    checkE2ePassRate signals t = Except.ok (runCheckTotal signals T
      (GateCheck.mk "E2E_PASS_RATE" SignalType.TEST "e2e_pass_rate"
        "e2e_pass_rate_min" true Severity.BLOCK)) := by
  unfold checkE2ePassRate runCheckTotal
  cases get_signal_value signals SignalType.TEST "e2e_pass_rate" <;>
    simp [dictGet_eq_ok h]

theorem checkIntegrationPassRate_total (signals : List Signal) (t : Dict)
    (T : String → ℚ)
    (h : dictFind t "integration_pass_rate_min" =
      some (T "integration_pass_rate_min")) :
    checkIntegrationPassRate signals t = Except.ok (runCheckTotal signals T
      (GateCheck.mk "INTEGRATION_PASS_RATE" SignalType.TEST
        "integration_pass_rate" "integration_pass_rate_min" true
        Severity.BLOCK)) := by
  unfold checkIntegrationPassRate runCheckTotal
  cases get_signal_value signals SignalType.TEST "integration_pass_rate" <;>
    simp [dictGet_eq_ok h]

theorem checkUnitPassRate_total (signals : List Signal) (t : Dict) (T : String → ℚ)
    (h : dictFind t "unit_pass_rate_min" = some (T "unit_pass_rate_min")) :
    checkUnitPassRate signals t = Except.ok (runCheckTotal signals T
      (GateCheck.mk "UNIT_PASS_RATE" SignalType.TEST "unit_pass_rate"
        "unit_pass_rate_min" true Severity.BLOCK)) := by
  unfold checkUnitPassRate runCheckTotal
  cases get_signal_value signals SignalType.TEST "unit_pass_rate" <;>
    simp [dictGet_eq_ok h]

theorem checkTotalTests_total (signals : List Signal) (t : Dict) (T : String → ℚ)
    (h : dictFind t "total_tests_min" = some (T "total_tests_min")) :
    checkTotalTests signals t = Except.ok (runCheckTotal signals T
      (GateCheck.mk "TOTAL_TESTS" SignalType.TEST "total_tests"
        "total_tests_min" true Severity.BLOCK)) := by
  unfold checkTotalTests runCheckTotal
  cases get_signal_value signals SignalType.TEST "total_tests" <;>
    simp [dictGet_eq_ok h]

theorem checkLineCoverage_total (signals : List Signal) (t : Dict) (T : String → ℚ)
    (h : dictFind t "line_coverage_min" = some (T "line_coverage_min")) :
    checkLineCoverage signals t = Except.ok (runCheckTotal signals T
      (GateCheck.mk "LINE_COVERAGE" SignalType.COVERAGE "line_coverage"
        "line_coverage_min" true Severity.WARN)) := by
  unfold checkLineCoverage runCheckTotal
  cases get_signal_value signals SignalType.COVERAGE "line_coverage" <;>
    simp [dictGet_eq_ok h]

theorem checkCoverageDrop_total (signals : List Signal) (t : Dict) (T : String → ℚ)
    (h : dictFind t "coverage_drop_max" = some (T "coverage_drop_max")) :
    checkCoverageDrop signals t = Except.ok (runCheckTotal signals T
      (GateCheck.mk "COVERAGE_DROP" SignalType.COVERAGE "coverage_drop"
        "coverage_drop_max" false Severity.WARN)) := by
  unfold checkCoverageDrop runCheckTotal
  cases get_signal_value signals SignalType.COVERAGE "coverage_drop" <;>
    simp [dictGet_eq_ok h]

theorem checkP95Regression_total (signals : List Signal) (t : Dict) (T : String → ℚ)
    (h : dictFind t "p95_regression_max" = some (T "p95_regression_max")) :
    checkP95Regression signals t = Except.ok (runCheckTotal signals T
      (GateCheck.mk "P95_REGRESSION" SignalType.PERF "p95_regression"
        "p95_regression_max" false Severity.BLOCK)) := by
  unfold checkP95Regression runCheckTotal
  cases get_signal_value signals SignalType.PERF "p95_regression" <;>
    simp [dictGet_eq_ok h]

theorem checkErrorRate_total (signals : List Signal) (t : Dict) (T : String → ℚ)
    (h : dictFind t "error_rate_max" = some (T "error_rate_max")) :
    checkErrorRate signals t = Except.ok (runCheckTotal signals T
      (GateCheck.mk "ERROR_RATE" SignalType.PERF "error_rate"
        "error_rate_max" false Severity.BLOCK)) := by
  unfold checkErrorRate runCheckTotal
  cases get_signal_value signals SignalType.PERF "error_rate" <;>
    simp [dictGet_eq_ok h]

theorem checkCanary5xxRate_total (signals : List Signal) (t : Dict) (T : String → ℚ)
    (h : dictFind t "canary_5xx_rate_max" = some (T "canary_5xx_rate_max")) :
    checkCanary5xxRate signals t = Except.ok (runCheckTotal signals T
      (GateCheck.mk "CANARY_5XX_RATE" SignalType.CANARY "5xx_rate"
        "canary_5xx_rate_max" false Severity.BLOCK)) := by
  unfold checkCanary5xxRate runCheckTotal
  cases get_signal_value signals SignalType.CANARY "5xx_rate" <;>
    simp [dictGet_eq_ok h]

/-- C5: under a complete threshold configuration, the hand-written gate
evaluators produce exactly the declarative §4.2 catalogue evaluation: a check
whose signal is absent emits no result, a check whose signal is present emits
exactly one, with severity `INFO` on pass and the catalogue's on-fail
severity on failure. -/
theorem gates_follow_catalog (signals : List Signal) (t : Dict) (T : String → ℚ)
    (h : ∀ k ∈ requiredThresholdKeys, dictFind t k = some (T k)) :
    allGateResults signals (some t) = Except.ok (specGatesTotal signals T) := by
  have h1 := h "e2e_pass_rate_min" (by simp [requiredThresholdKeys])
  have h2 := h "integration_pass_rate_min" (by simp [requiredThresholdKeys])
  have h3 := h "unit_pass_rate_min" (by simp [requiredThresholdKeys])
  have h4 := h "total_tests_min" (by simp [requiredThresholdKeys])
  have h5 := h "line_coverage_min" (by simp [requiredThresholdKeys])
  have h6 := h "coverage_drop_max" (by simp [requiredThresholdKeys])
  have h7 := h "p95_regression_max" (by simp [requiredThresholdKeys])
  have h8 := h "error_rate_max" (by simp [requiredThresholdKeys])
  have h9 := h "canary_5xx_rate_max" (by simp [requiredThresholdKeys])
  have hne : t ≠ [] := dictFind_ne_nil h1
  simp only [allGateResults, evaluate_hard_gates, evaluate_performance_gates,
    evaluate_canary_gates, orDefault_some hne,
    checkE2ePassRate_total signals t T h1,
    checkIntegrationPassRate_total signals t T h2,
    checkUnitPassRate_total signals t T h3,
    checkTotalTests_total signals t T h4,
    checkLineCoverage_total signals t T h5,
    checkCoverageDrop_total signals t T h6,
    checkP95Regression_total signals t T h7,
    checkErrorRate_total signals t T h8,
    checkCanary5xxRate_total signals t T h9,
    okBind, pureExcept]
  simp [specGatesTotal, gateCatalog, List.append_assoc]

/-- Witness for C5: the default thresholds with a failing coverage-drop
signal and an absent everything-else. -/
theorem gates_follow_catalog_witness :
    allGateResults [Signal.mk SignalType.COVERAGE "coverage_drop" (some 0.03)]
        (some DEFAULT_THRESHOLDS) =
      Except.ok (specGatesTotal
        [Signal.mk SignalType.COVERAGE "coverage_drop" (some 0.03)]
        (fun k => (dictFind DEFAULT_THRESHOLDS k).getD 0)) := by
  exact gates_follow_catalog _ DEFAULT_THRESHOLDS _
    (by intro k hk
        fin_cases hk <;> simp +decide [DEFAULT_THRESHOLDS, dictFind])

/-! Helper lemmas about `optTerm`, averages and Python-style maxima. -/

theorem mem_optTerm {x : ℚ} {o : Option ℚ} {f : ℚ → ℚ}
    (h : x ∈ optTerm o f) : ∃ v, o = some v ∧ x = f v := by
  cases o <;> simp_all [optTerm]

theorem foldl_max_nonneg (xs : List ℚ) :
    ∀ x : ℚ, 0 ≤ x → 0 ≤ xs.foldl max x := by
  induction xs with
  | nil => intro x hx; simpa using hx
  | cons y ys ih =>
      intro x hx
      rw [List.foldl_cons]
      exact ih _ (le_trans hx (le_max_left x y))

theorem clampedAvg_bounds (l : List ℚ) (h : ∀ x ∈ l, 0 ≤ x) :
    0 ≤ (if l = [] then (0 : ℚ) else min 1 (l.sum / (l.length : ℚ))) ∧
      (if l = [] then (0 : ℚ) else min 1 (l.sum / (l.length : ℚ))) ≤ 1 := by
  split_ifs with hl
  · norm_num
  · constructor
    · exact le_min (by norm_num)
        (div_nonneg (List.sum_nonneg h) (by positivity))
    · exact min_le_left _ _

theorem clampedMax_bounds (l : List ℚ) (h : ∀ x ∈ l, 0 ≤ x) :
    0 ≤ (if l = [] then (0 : ℚ) else min 1 (pyMax l)) ∧
      (if l = [] then (0 : ℚ) else min 1 (pyMax l)) ≤ 1 := by
  split_ifs with hl
  · norm_num
  · constructor
    · refine le_min (by norm_num) ?_
      cases l with
      | nil => exact absurd rfl hl
      | cons x xs => exact foldl_max_nonneg xs x (h x (by simp))
    · exact min_le_left _ _

/-- The four test-risk terms of spec §4.3, one per present signal, in the
order the source appends them. -/
def testRiskTerms (signals : List Signal) : List ℚ :=
  optTerm (get_signal_value signals SignalType.TEST "unit_pass_rate")
      (fun v => 1 - v) ++
    optTerm (get_signal_value signals SignalType.TEST "integration_pass_rate")
      (fun v => 1 - v) ++
    optTerm (get_signal_value signals SignalType.TEST "e2e_pass_rate")
      (fun v => (1 - v) * 1.5) ++
    optTerm (get_signal_value signals SignalType.TEST "flaky_rate")
      (fun v => v * 0.5)

/-- C4: test risk is the sum of exactly the present terms divided by the
number of present terms (the empty quotient 0/0 being 0), clamped above at
1. -/
theorem compute_test_risk_eq_average (signals : List Signal) :
    compute_test_risk signals =
      min 1 ((testRiskTerms signals).sum / ((testRiskTerms signals).length : ℚ)) := by
  unfold compute_test_risk testRiskTerms
  simp only [List.nil_append]
  split_ifs with h
  · rw [h]
    norm_num
  · rfl

/-- The two coverage-risk terms of spec §4.3, in source order. -/
def coverageRiskTerms (signals : List Signal) : List ℚ :=
  optTerm (get_signal_value signals SignalType.COVERAGE "line_coverage")
      (fun v => 1 - v) ++
    optTerm (get_signal_value signals SignalType.COVERAGE "coverage_drop")
      (fun v => min 1 (v * 10))

/-- C6 counterexample: with `line_coverage = -1` and no `coverage_drop`,
the code clamps the risk to 1, so it does not equal
`1 − line_coverage = 2` as the claim requires for every signal sequence. -/
theorem coverage_risk_counterexample :
    compute_coverage_risk
        [Signal.mk SignalType.COVERAGE "line_coverage" (some (-1))] ≠
      1 - (-1) := by
  have h : compute_coverage_risk
      [Signal.mk SignalType.COVERAGE "line_coverage" (some (-1))] = 1 := by
    simp +decide [compute_coverage_risk, get_signal_value, pyMax]
  rw [h]
  norm_num

/-- C6 amended: coverage risk is the maximum of the present terms clamped
above at 1 (`min 1` of the Python max, 0 when no term is present); in
particular, when `coverage_drop` is absent and `line_coverage` is present
with a nonnegative value, it equals exactly `1 − line_coverage`. -/
theorem compute_coverage_risk_clamped_max (signals : List Signal) :
    compute_coverage_risk signals =
      (if coverageRiskTerms signals = [] then 0
       else min 1 (pyMax (coverageRiskTerms signals))) ∧
    (∀ lc : ℚ,
      get_signal_value signals SignalType.COVERAGE "coverage_drop" = none →
      get_signal_value signals SignalType.COVERAGE "line_coverage" = some lc →
      0 ≤ lc → compute_coverage_risk signals = 1 - lc) := by
  constructor
  · unfold compute_coverage_risk coverageRiskTerms
    simp only [List.nil_append]
  · intro lc hcd hlc hpos
    unfold compute_coverage_risk
    simp only [hcd, hlc, optTerm_some, optTerm_none, List.nil_append,
      List.append_nil]
    rw [if_neg (by simp)]
    show min 1 (pyMax [1 - lc]) = 1 - lc
    simp only [pyMax, List.foldl_nil]
    exact min_eq_right (by linarith)

/-- Witness for C6 (amended): `line_coverage = 0.90` with no coverage drop
gives coverage risk exactly `0.10`. -/
theorem compute_coverage_risk_clamped_max_witness :
    compute_coverage_risk
        [Signal.mk SignalType.COVERAGE "line_coverage" (some 0.9)] =
      1 - 0.9 := by
  exact (compute_coverage_risk_clamped_max
      [Signal.mk SignalType.COVERAGE "line_coverage" (some 0.9)]).2 0.9
    (by simp +decide [get_signal_value])
    (by simp +decide [get_signal_value])
    (by norm_num)

/-- C3 counterexample: a `unit_pass_rate` of 2 (outside the natural domain,
but a legal signal value) makes the test risk −1, which is outside [0,1]. -/
theorem test_risk_counterexample :
    compute_test_risk [Signal.mk SignalType.TEST "unit_pass_rate" (some 2)] = -1 ∧
    ¬ (0 ≤ compute_test_risk
        [Signal.mk SignalType.TEST "unit_pass_rate" (some 2)]) := by
  have h : compute_test_risk
      [Signal.mk SignalType.TEST "unit_pass_rate" (some 2)] = -1 := by
    simp +decide [compute_test_risk, get_signal_value]
    norm_num
  exact ⟨h, by rw [h]; norm_num⟩

/-- C3 amended: when every present relevant signal lies in its natural
domain (pass rates and line coverage at most 1; flaky rate, coverage drop,
regressions and error/5xx rates nonnegative), each of the four category risk
functions returns a value in [0,1]; and, unconditionally (no domain
hypotheses), a category with no relevant signal present scores exactly 0. -/
theorem risk_functions_in_unit_interval (signals : List Signal) :
    ((get_signal_value signals SignalType.TEST "unit_pass_rate").getD 0 ≤ 1 →
     (get_signal_value signals SignalType.TEST "integration_pass_rate").getD 0 ≤ 1 →
     (get_signal_value signals SignalType.TEST "e2e_pass_rate").getD 0 ≤ 1 →
     0 ≤ (get_signal_value signals SignalType.TEST "flaky_rate").getD 0 →
     (get_signal_value signals SignalType.COVERAGE "line_coverage").getD 0 ≤ 1 →
     0 ≤ (get_signal_value signals SignalType.COVERAGE "coverage_drop").getD 0 →
     0 ≤ (get_signal_value signals SignalType.PERF "p95_regression").getD 0 →
     0 ≤ (get_signal_value signals SignalType.PERF "error_rate").getD 0 →
     0 ≤ (get_signal_value signals SignalType.CANARY "5xx_rate").getD 0 →
     0 ≤ (get_signal_value signals SignalType.CANARY "p95_regression").getD 0 →
     ((0 ≤ compute_test_risk signals ∧ compute_test_risk signals ≤ 1) ∧
      (0 ≤ compute_coverage_risk signals ∧ compute_coverage_risk signals ≤ 1) ∧
      (0 ≤ compute_perf_risk signals ∧ compute_perf_risk signals ≤ 1) ∧
      (0 ≤ compute_canary_risk signals ∧ compute_canary_risk signals ≤ 1))) ∧
    ((get_signal_value signals SignalType.TEST "unit_pass_rate" = none →
      get_signal_value signals SignalType.TEST "integration_pass_rate" = none →
      get_signal_value signals SignalType.TEST "e2e_pass_rate" = none →
      get_signal_value signals SignalType.TEST "flaky_rate" = none →
      compute_test_risk signals = 0) ∧
     (get_signal_value signals SignalType.COVERAGE "line_coverage" = none →
      get_signal_value signals SignalType.COVERAGE "coverage_drop" = none →
      compute_coverage_risk signals = 0) ∧
     (get_signal_value signals SignalType.PERF "p95_regression" = none →
      get_signal_value signals SignalType.PERF "error_rate" = none →
      compute_perf_risk signals = 0) ∧
     (get_signal_value signals SignalType.CANARY "5xx_rate" = none →
      get_signal_value signals SignalType.CANARY "p95_regression" = none →
      compute_canary_risk signals = 0)) := by
  constructor
  · intro hu hi he hf hlc hcd hp her hx5 hcp
    refine ⟨?_, ?_, ?_, ?_⟩
    · unfold compute_test_risk
      simp only [List.nil_append]
      apply clampedAvg_bounds
      intro x hx
      simp only [List.mem_append] at hx
      rcases hx with ((hx | hx) | hx) | hx
      · obtain ⟨v, hv, rfl⟩ := mem_optTerm hx
        rw [hv] at hu
        simp only [Option.getD_some] at hu
        linarith
      · obtain ⟨v, hv, rfl⟩ := mem_optTerm hx
        rw [hv] at hi
        simp only [Option.getD_some] at hi
        linarith
      · obtain ⟨v, hv, rfl⟩ := mem_optTerm hx
        rw [hv] at he
        simp only [Option.getD_some] at he
        have h1 : (0 : ℚ) ≤ 1 - v := by linarith
        have h2 : (0 : ℚ) ≤ (1.5 : ℚ) := by norm_num
        exact mul_nonneg h1 h2
      · obtain ⟨v, hv, rfl⟩ := mem_optTerm hx
        rw [hv] at hf
        simp only [Option.getD_some] at hf
        have h2 : (0 : ℚ) ≤ (0.5 : ℚ) := by norm_num
        exact mul_nonneg hf h2
    · unfold compute_coverage_risk
      simp only [List.nil_append]
      apply clampedMax_bounds
      intro x hx
      simp only [List.mem_append] at hx
      rcases hx with hx | hx
      · obtain ⟨v, hv, rfl⟩ := mem_optTerm hx
        rw [hv] at hlc
        simp only [Option.getD_some] at hlc
        linarith
      · obtain ⟨v, hv, rfl⟩ := mem_optTerm hx
        rw [hv] at hcd
        simp only [Option.getD_some] at hcd
        exact le_min (by norm_num) (by positivity)
    · unfold compute_perf_risk
      simp only [List.nil_append]
      apply clampedMax_bounds
      intro x hx
      simp only [List.mem_append] at hx
      rcases hx with hx | hx
      · obtain ⟨v, hv, rfl⟩ := mem_optTerm hx
        rw [hv] at hp
        simp only [Option.getD_some] at hp
        exact le_min (by norm_num) (by positivity)
      · obtain ⟨v, hv, rfl⟩ := mem_optTerm hx
        rw [hv] at her
        simp only [Option.getD_some] at her
        exact le_min (by norm_num) (by positivity)
    · unfold compute_canary_risk
      simp only [List.nil_append]
      apply clampedMax_bounds
      intro x hx
      simp only [List.mem_append] at hx
      rcases hx with hx | hx
      · obtain ⟨v, hv, rfl⟩ := mem_optTerm hx
        rw [hv] at hx5
        simp only [Option.getD_some] at hx5
        exact le_min (by norm_num) (by positivity)
      · obtain ⟨v, hv, rfl⟩ := mem_optTerm hx
        rw [hv] at hcp
        simp only [Option.getD_some] at hcp
        exact le_min (by norm_num) (by positivity)
  · refine ⟨?_, ?_, ?_, ?_⟩
    · intro h1 h2 h3 h4
      simp [compute_test_risk, h1, h2, h3, h4]
    · intro h1 h2
      simp [compute_coverage_risk, h1, h2]
    · intro h1 h2
      simp [compute_perf_risk, h1, h2]
    · intro h1 h2
      simp [compute_canary_risk, h1, h2]

/-- Witness for C3 (amended) at a concrete in-domain signal set. -/
theorem risk_functions_in_unit_interval_witness :
    (0 ≤ compute_test_risk
        [Signal.mk SignalType.TEST "unit_pass_rate" (some 0.9),
         Signal.mk SignalType.COVERAGE "line_coverage" (some 0.8),
         Signal.mk SignalType.PERF "p95_regression" (some 0.05),
         Signal.mk SignalType.CANARY "5xx_rate" (some 0.002)] ∧
      compute_test_risk
        [Signal.mk SignalType.TEST "unit_pass_rate" (some 0.9),
         Signal.mk SignalType.COVERAGE "line_coverage" (some 0.8),
         Signal.mk SignalType.PERF "p95_regression" (some 0.05),
         Signal.mk SignalType.CANARY "5xx_rate" (some 0.002)] ≤ 1) := by
  refine ((risk_functions_in_unit_interval
    [Signal.mk SignalType.TEST "unit_pass_rate" (some 0.9),
     Signal.mk SignalType.COVERAGE "line_coverage" (some 0.8),
     Signal.mk SignalType.PERF "p95_regression" (some 0.05),
     Signal.mk SignalType.CANARY "5xx_rate" (some 0.002)]).1
    ?_ ?_ ?_ ?_ ?_ ?_ ?_ ?_ ?_ ?_).1 <;>
  · simp +decide [get_signal_value]
    try norm_num

/-- C7: under a weight mapping supplying the four consulted keys, the
weighted risk score is `100 ×` the weighted sum of the four category risks;
and the score never depends on a `deps` entry. -/
theorem compute_weighted_risk_score_formula (signals : List Signal) (w : Dict)
    (a b c d : ℚ)
    (ht : dictFind w "tests" = some a)
    (hc : dictFind w "coverage" = some b)
    (hp : dictFind w "perf" = some c)
    (hk : dictFind w "canary" = some d) :
    compute_weighted_risk_score signals (some w) =
      Except.ok (100 * (a * compute_test_risk signals +
        b * compute_coverage_risk signals +
        c * compute_perf_risk signals +
        d * compute_canary_risk signals)) ∧
    (∀ dv : ℚ,
      compute_weighted_risk_score signals (some (("deps", dv) :: w)) =
        compute_weighted_risk_score signals (some w)) := by
  have hne : w ≠ [] := dictFind_ne_nil ht
  have hmain : compute_weighted_risk_score signals (some w) =
      Except.ok (100 * (a * compute_test_risk signals +
        b * compute_coverage_risk signals +
        c * compute_perf_risk signals +
        d * compute_canary_risk signals)) := by
    simp only [compute_weighted_risk_score, orDefault_some hne,
      dictGet_eq_ok ht, dictGet_eq_ok hc, dictGet_eq_ok hp, dictGet_eq_ok hk,
      okBind, pureExcept]
    congr 1
    ring
  refine ⟨hmain, ?_⟩
  intro dv
  have ht2 : dictFind (("deps", dv) :: w) "tests" = some a := by
    simp +decide [dictFind, ht]
  have hc2 : dictFind (("deps", dv) :: w) "coverage" = some b := by
    simp +decide [dictFind, hc]
  have hp2 : dictFind (("deps", dv) :: w) "perf" = some c := by
    simp +decide [dictFind, hp]
  have hk2 : dictFind (("deps", dv) :: w) "canary" = some d := by
    simp +decide [dictFind, hk]
  have hne2 : ("deps", dv) :: w ≠ [] := List.cons_ne_nil _ _
  rw [hmain]
  simp only [compute_weighted_risk_score, orDefault_some hne2,
    dictGet_eq_ok ht2, dictGet_eq_ok hc2, dictGet_eq_ok hp2, dictGet_eq_ok hk2,
    okBind, pureExcept]
  congr 1
  ring

/-- Witness for C7: the default weight mapping over the empty signal set. -/
theorem compute_weighted_risk_score_formula_witness :
    compute_weighted_risk_score [] (some DEFAULT_WEIGHTS) =
      Except.ok (100 * (0.35 * compute_test_risk [] +
        0.10 * compute_coverage_risk [] +
        0.25 * compute_perf_risk [] +
        0.25 * compute_canary_risk [])) := by
  exact (compute_weighted_risk_score_formula [] DEFAULT_WEIGHTS
    0.35 0.10 0.25 0.25
    (by simp +decide [DEFAULT_WEIGHTS, dictFind])
    (by simp +decide [DEFAULT_WEIGHTS, dictFind])
    (by simp +decide [DEFAULT_WEIGHTS, dictFind])
    (by simp +decide [DEFAULT_WEIGHTS, dictFind])).1

/-- C8: on the empty signal sequence, with any thresholds and any weight
configuration supplying the four consulted keys, evaluation succeeds with
decision APPROVE, risk score exactly 0 and empty rationale, under the
default decision thresholds. -/
theorem evaluate_release_empty (thresholds weights : Option Dict)
    (a b c d : ℚ)
    (ht : dictFind (orDefault weights DEFAULT_WEIGHTS) "tests" = some a)
    (hc : dictFind (orDefault weights DEFAULT_WEIGHTS) "coverage" = some b)
    (hp : dictFind (orDefault weights DEFAULT_WEIGHTS) "perf" = some c)
    (hk : dictFind (orDefault weights DEFAULT_WEIGHTS) "canary" = some d) :
    evaluate_release [] thresholds weights defaultSettings =
      Except.ok (EvaluationResult.mk Decision.APPROVE 0 []) := by
  have hg1 : evaluate_hard_gates [] thresholds = Except.ok [] := by
    simp [evaluate_hard_gates, checkE2ePassRate, checkIntegrationPassRate,
      checkUnitPassRate, checkTotalTests, checkLineCoverage, checkCoverageDrop,
      get_signal_value]
  have hg2 : evaluate_performance_gates [] thresholds = Except.ok [] := by
    simp [evaluate_performance_gates, checkP95Regression, checkErrorRate,
      get_signal_value]
  have hg3 : evaluate_canary_gates [] thresholds = Except.ok [] := by
    simp [evaluate_canary_gates, checkCanary5xxRate, get_signal_value]
  have hrisk : compute_weighted_risk_score [] weights = Except.ok 0 := by
    simp only [compute_weighted_risk_score, dictGet_eq_ok ht, dictGet_eq_ok hc,
      dictGet_eq_ok hp, dictGet_eq_ok hk, okBind, pureExcept]
    norm_num [compute_test_risk, compute_coverage_risk, compute_perf_risk,
      compute_canary_risk, get_signal_value]
  simp only [evaluate_release, hg1, hg2, hg3, hrisk, okBind, pureExcept]
  norm_num [defaultSettings]

/-- Witness for C8: no overrides at all. -/
theorem evaluate_release_empty_witness :
    evaluate_release [] none none defaultSettings =
      Except.ok (EvaluationResult.mk Decision.APPROVE 0 []) := by
  exact evaluate_release_empty none none 0.35 0.10 0.25 0.25
    (by simp +decide [orDefault, DEFAULT_WEIGHTS, dictFind])
    (by simp +decide [orDefault, DEFAULT_WEIGHTS, dictFind])
    (by simp +decide [orDefault, DEFAULT_WEIGHTS, dictFind])
    (by simp +decide [orDefault, DEFAULT_WEIGHTS, dictFind])

/-- C2 counterexample: the empty override dictionary is caller-supplied and
is missing every required threshold key, yet evaluation raises no key error:
Python's falsy-`or` silently replaces it with the full defaults (here the
default limit 0.98 appears in the emitted result). -/
theorem empty_thresholds_silently_defaulted :
    evaluate_hard_gates
        [Signal.mk SignalType.TEST "e2e_pass_rate" (some (1/2))] (some []) =
      Except.ok [RuleResult.mk "E2E_PASS_RATE" Severity.BLOCK (1/2) 0.98
        "E2E_PASS_RATE" false] := by
  simp +decide [evaluate_hard_gates, checkE2ePassRate, checkIntegrationPassRate,
    checkUnitPassRate, checkTotalTests, checkLineCoverage, checkCoverageDrop,
    get_signal_value, orDefault, DEFAULT_THRESHOLDS, dictGet, dictFind]
  norm_num

@[simp]
theorem ok_eq_error_iff {α : Type} (a : α) (e : String) :
    ((Except.ok a : Except String α) = Except.error e) ↔ False :=
  ⟨fun h => Except.noConfusion h, False.elim⟩

theorem checkE2ePassRate_error_iff (signals : List Signal) (t : Dict) :
    (∃ e, checkE2ePassRate signals t = Except.error e) ↔
      (dictFind t "e2e_pass_rate_min" = none ∧
        (get_signal_value signals SignalType.TEST "e2e_pass_rate").isSome) := by
  unfold checkE2ePassRate
  cases hs : get_signal_value signals SignalType.TEST "e2e_pass_rate" with
  | none => simp
  | some v =>
      cases hk : dictFind t "e2e_pass_rate_min" with
      | none => simp [dictGet_eq_error hk]
      | some lim => simp [dictGet_eq_ok hk]

theorem checkIntegrationPassRate_error_iff (signals : List Signal) (t : Dict) :
    (∃ e, checkIntegrationPassRate signals t = Except.error e) ↔
      (dictFind t "integration_pass_rate_min" = none ∧
        (get_signal_value signals SignalType.TEST "integration_pass_rate").isSome) := by
  unfold checkIntegrationPassRate
  cases hs : get_signal_value signals SignalType.TEST "integration_pass_rate" with
  | none => simp
  | some v =>
      cases hk : dictFind t "integration_pass_rate_min" with
      | none => simp [dictGet_eq_error hk]
      | some lim => simp [dictGet_eq_ok hk]

theorem checkUnitPassRate_error_iff (signals : List Signal) (t : Dict) :
    (∃ e, checkUnitPassRate signals t = Except.error e) ↔
      (dictFind t "unit_pass_rate_min" = none ∧
        (get_signal_value signals SignalType.TEST "unit_pass_rate").isSome) := by
  unfold checkUnitPassRate
  cases hs : get_signal_value signals SignalType.TEST "unit_pass_rate" with
  | none => simp
  | some v =>
      cases hk : dictFind t "unit_pass_rate_min" with
      | none => simp [dictGet_eq_error hk]
      | some lim => simp [dictGet_eq_ok hk]

theorem checkTotalTests_error_iff (signals : List Signal) (t : Dict) :
    (∃ e, checkTotalTests signals t = Except.error e) ↔
      (dictFind t "total_tests_min" = none ∧
        (get_signal_value signals SignalType.TEST "total_tests").isSome) := by
  unfold checkTotalTests
  cases hs : get_signal_value signals SignalType.TEST "total_tests" with
  | none => simp
  | some v =>
      cases hk : dictFind t "total_tests_min" with
      | none => simp [dictGet_eq_error hk]
      | some lim => simp [dictGet_eq_ok hk]

theorem checkLineCoverage_error_iff (signals : List Signal) (t : Dict) :
    (∃ e, checkLineCoverage signals t = Except.error e) ↔
      (dictFind t "line_coverage_min" = none ∧
        (get_signal_value signals SignalType.COVERAGE "line_coverage").isSome) := by
  unfold checkLineCoverage
  cases hs : get_signal_value signals SignalType.COVERAGE "line_coverage" with
  | none => simp
  | some v =>
      cases hk : dictFind t "line_coverage_min" with
      | none => simp [dictGet_eq_error hk]
      | some lim => simp [dictGet_eq_ok hk]

theorem checkCoverageDrop_error_iff (signals : List Signal) (t : Dict) :
    (∃ e, checkCoverageDrop signals t = Except.error e) ↔
      (dictFind t "coverage_drop_max" = none ∧
        (get_signal_value signals SignalType.COVERAGE "coverage_drop").isSome) := by
  unfold checkCoverageDrop
  cases hs : get_signal_value signals SignalType.COVERAGE "coverage_drop" with
  | none => simp
  | some v =>
      cases hk : dictFind t "coverage_drop_max" with
      | none => simp [dictGet_eq_error hk]
      | some lim => simp [dictGet_eq_ok hk]

theorem checkP95Regression_error_iff (signals : List Signal) (t : Dict) :
    (∃ e, checkP95Regression signals t = Except.error e) ↔
      (dictFind t "p95_regression_max" = none ∧
        (get_signal_value signals SignalType.PERF "p95_regression").isSome) := by
  unfold checkP95Regression
  cases hs : get_signal_value signals SignalType.PERF "p95_regression" with
  | none => simp
  | some v =>
      cases hk : dictFind t "p95_regression_max" with
      | none => simp [dictGet_eq_error hk]
      | some lim => simp [dictGet_eq_ok hk]

theorem checkErrorRate_error_iff (signals : List Signal) (t : Dict) :
    (∃ e, checkErrorRate signals t = Except.error e) ↔
      (dictFind t "error_rate_max" = none ∧
        (get_signal_value signals SignalType.PERF "error_rate").isSome) := by
  unfold checkErrorRate
  cases hs : get_signal_value signals SignalType.PERF "error_rate" with
  | none => simp
  | some v =>
      cases hk : dictFind t "error_rate_max" with
      | none => simp [dictGet_eq_error hk]
      | some lim => simp [dictGet_eq_ok hk]

theorem checkCanary5xxRate_error_iff (signals : List Signal) (t : Dict) :
    (∃ e, checkCanary5xxRate signals t = Except.error e) ↔
      (dictFind t "canary_5xx_rate_max" = none ∧
        (get_signal_value signals SignalType.CANARY "5xx_rate").isSome) := by
  unfold checkCanary5xxRate
  cases hs : get_signal_value signals SignalType.CANARY "5xx_rate" with
  | none => simp
  | some v =>
      cases hk : dictFind t "canary_5xx_rate_max" with
      | none => simp [dictGet_eq_error hk]
      | some lim => simp [dictGet_eq_ok hk]

set_option maxHeartbeats 1600000 in
/-- C2 amended: a missing key faults evaluation exactly when it is actually
consulted.  Gate evaluation over a nonempty threshold override raises a key
error if and only if some catalogue check has its signal present while its
threshold key is missing — so every consulted threshold key fails fast, and
a key that is missing but whose gate signal is absent is never consulted.
The weighted score over a nonempty weight override raises a key error if and
only if one of the four consulted weight keys (tests, coverage, perf,
canary) is missing — so the `deps` key is never consulted.  In the error
case no default is substituted for the missing key.  (The empty override,
being falsy in Python, is instead replaced wholesale by the defaults.) -/
theorem missing_key_fails_fast :
    (∀ (signals : List Signal) (t : Dict), t ≠ [] →
      ((∃ e, allGateResults signals (some t) = Except.error e) ↔
        ((dictFind t "e2e_pass_rate_min" = none ∧
            (get_signal_value signals SignalType.TEST "e2e_pass_rate").isSome) ∨
         (dictFind t "integration_pass_rate_min" = none ∧
            (get_signal_value signals SignalType.TEST "integration_pass_rate").isSome) ∨
         (dictFind t "unit_pass_rate_min" = none ∧
            (get_signal_value signals SignalType.TEST "unit_pass_rate").isSome) ∨
         (dictFind t "total_tests_min" = none ∧
            (get_signal_value signals SignalType.TEST "total_tests").isSome) ∨
         (dictFind t "line_coverage_min" = none ∧
            (get_signal_value signals SignalType.COVERAGE "line_coverage").isSome) ∨
         (dictFind t "coverage_drop_max" = none ∧
            (get_signal_value signals SignalType.COVERAGE "coverage_drop").isSome) ∨
         (dictFind t "p95_regression_max" = none ∧
            (get_signal_value signals SignalType.PERF "p95_regression").isSome) ∨
         (dictFind t "error_rate_max" = none ∧
            (get_signal_value signals SignalType.PERF "error_rate").isSome) ∨
         (dictFind t "canary_5xx_rate_max" = none ∧
            (get_signal_value signals SignalType.CANARY "5xx_rate").isSome)))) ∧
    (∀ (signals : List Signal) (w : Dict), w ≠ [] →
      ((∃ e, compute_weighted_risk_score signals (some w) = Except.error e) ↔
        (dictFind w "tests" = none ∨ dictFind w "coverage" = none ∨
         dictFind w "perf" = none ∨ dictFind w "canary" = none))) := by
  constructor
  · intro signals t hne
    simp only [allGateResults, evaluate_hard_gates, evaluate_performance_gates,
      evaluate_canary_gates, orDefault_some hne]
    rcases hc1 : checkE2ePassRate signals t with e | l1
    · simp only [errorBind]
      refine iff_of_true ⟨e, rfl⟩ ?_
      have hp := (checkE2ePassRate_error_iff signals t).mp ⟨e, hc1⟩
      exact (Or.inl hp)
    simp only [okBind, pureExcept]
    rcases hc2 : checkIntegrationPassRate signals t with e | l2
    · simp only [errorBind]
      refine iff_of_true ⟨e, rfl⟩ ?_
      have hp := (checkIntegrationPassRate_error_iff signals t).mp ⟨e, hc2⟩
      exact (Or.inr (Or.inl hp))
    simp only [okBind, pureExcept]
    rcases hc3 : checkUnitPassRate signals t with e | l3
    · simp only [errorBind]
      refine iff_of_true ⟨e, rfl⟩ ?_
      have hp := (checkUnitPassRate_error_iff signals t).mp ⟨e, hc3⟩
      exact (Or.inr (Or.inr (Or.inl hp)))
    simp only [okBind, pureExcept]
    rcases hc4 : checkTotalTests signals t with e | l4
    · simp only [errorBind]
      refine iff_of_true ⟨e, rfl⟩ ?_
      have hp := (checkTotalTests_error_iff signals t).mp ⟨e, hc4⟩
      exact (Or.inr (Or.inr (Or.inr (Or.inl hp))))
    simp only [okBind, pureExcept]
    rcases hc5 : checkLineCoverage signals t with e | l5
    · simp only [errorBind]
      refine iff_of_true ⟨e, rfl⟩ ?_
      have hp := (checkLineCoverage_error_iff signals t).mp ⟨e, hc5⟩
      exact (Or.inr (Or.inr (Or.inr (Or.inr (Or.inl hp)))))
    simp only [okBind, pureExcept]
    rcases hc6 : checkCoverageDrop signals t with e | l6
    · simp only [errorBind]
      refine iff_of_true ⟨e, rfl⟩ ?_
      have hp := (checkCoverageDrop_error_iff signals t).mp ⟨e, hc6⟩
      exact (Or.inr (Or.inr (Or.inr (Or.inr (Or.inr (Or.inl hp))))))
    simp only [okBind, pureExcept]
    rcases hc7 : checkP95Regression signals t with e | l7
    · simp only [errorBind]
      refine iff_of_true ⟨e, rfl⟩ ?_
      have hp := (checkP95Regression_error_iff signals t).mp ⟨e, hc7⟩
      exact (Or.inr (Or.inr (Or.inr (Or.inr (Or.inr (Or.inr (Or.inl hp)))))))
    simp only [okBind, pureExcept]
    rcases hc8 : checkErrorRate signals t with e | l8
    · simp only [errorBind]
      refine iff_of_true ⟨e, rfl⟩ ?_
      have hp := (checkErrorRate_error_iff signals t).mp ⟨e, hc8⟩
      exact (Or.inr (Or.inr (Or.inr (Or.inr (Or.inr (Or.inr (Or.inr (Or.inl hp))))))))
    simp only [okBind, pureExcept]
    rcases hc9 : checkCanary5xxRate signals t with e | l9
    · simp only [errorBind]
      refine iff_of_true ⟨e, rfl⟩ ?_
      have hp := (checkCanary5xxRate_error_iff signals t).mp ⟨e, hc9⟩
      exact (Or.inr (Or.inr (Or.inr (Or.inr (Or.inr (Or.inr (Or.inr (Or.inr hp))))))))
    simp only [okBind, pureExcept]
    refine iff_of_false (by simp) ?_
    intro hbig
    rcases hbig with h | h | h | h | h | h | h | h | h
    · obtain ⟨e, he⟩ := (checkE2ePassRate_error_iff signals t).mpr h
      rw [hc1] at he
      exact Except.noConfusion he
    · obtain ⟨e, he⟩ := (checkIntegrationPassRate_error_iff signals t).mpr h
      rw [hc2] at he
      exact Except.noConfusion he
    · obtain ⟨e, he⟩ := (checkUnitPassRate_error_iff signals t).mpr h
      rw [hc3] at he
      exact Except.noConfusion he
    · obtain ⟨e, he⟩ := (checkTotalTests_error_iff signals t).mpr h
      rw [hc4] at he
      exact Except.noConfusion he
    · obtain ⟨e, he⟩ := (checkLineCoverage_error_iff signals t).mpr h
      rw [hc5] at he
      exact Except.noConfusion he
    · obtain ⟨e, he⟩ := (checkCoverageDrop_error_iff signals t).mpr h
      rw [hc6] at he
      exact Except.noConfusion he
    · obtain ⟨e, he⟩ := (checkP95Regression_error_iff signals t).mpr h
      rw [hc7] at he
      exact Except.noConfusion he
    · obtain ⟨e, he⟩ := (checkErrorRate_error_iff signals t).mpr h
      rw [hc8] at he
      exact Except.noConfusion he
    · obtain ⟨e, he⟩ := (checkCanary5xxRate_error_iff signals t).mpr h
      rw [hc9] at he
      exact Except.noConfusion he
  · intro signals w hne
    simp only [compute_weighted_risk_score, orDefault_some hne]
    rcases h1 : dictFind w "tests" with _ | a
    · simp [dictGet_eq_error h1]
    simp only [dictGet_eq_ok h1, okBind]
    rcases h2 : dictFind w "coverage" with _ | b
    · simp [dictGet_eq_error h2]
    simp only [dictGet_eq_ok h2, okBind]
    rcases h3 : dictFind w "perf" with _ | c
    · simp [dictGet_eq_error h3]
    simp only [dictGet_eq_ok h3, okBind]
    rcases h4 : dictFind w "canary" with _ | d
    · simp [dictGet_eq_error h4]
    simp [dictGet_eq_ok h4]

/-- Witness for C2 (amended): a nonempty threshold override missing the key
of a present e2e signal errors, and a nonempty weight override missing the
consulted weight keys errors. -/
theorem missing_key_fails_fast_witness :
    (∃ e, allGateResults [Signal.mk SignalType.TEST "e2e_pass_rate" (some 1)]
        (some [("unit_pass_rate_min", 0.95)]) = Except.error e) ∧
    (∃ e, compute_weighted_risk_score [] (some [("canary", 0.25)]) =
      Except.error e) := by
  constructor
  · exact (missing_key_fails_fast.1 _ _ (List.cons_ne_nil _ _)).mpr
      (Or.inl ⟨by simp +decide [dictFind], by simp +decide [get_signal_value]⟩)
  · exact (missing_key_fails_fast.2 [] _ (List.cons_ne_nil _ _)).mpr
      (Or.inl (by simp +decide [dictFind]))

/-- Replace the numeric value of the first signal matching `(ty, name)` with
`some v`, leaving everything else unchanged. -/
def updateFirst (signals : List Signal) (ty : SignalType) (name : String)
    (v : ℚ) : List Signal :=
  match signals with
  | [] => []
  | s :: rest =>
      if s.type = ty ∧ s.name = name then
        Signal.mk s.type s.name (some v) :: rest
      else s :: updateFirst rest ty name v

theorem get_updateFirst_self (signals : List Signal) (ty : SignalType)
    (name : String) (v w : ℚ)
    (h : get_signal_value signals ty name = some w) :
    get_signal_value (updateFirst signals ty name v) ty name = some v := by
  induction signals with
  | nil => simp [get_signal_value] at h
  | cons s rest ih =>
      by_cases hm : s.type = ty ∧ s.name = name
      · simp [updateFirst, get_signal_value, hm]
      · simp only [get_signal_value, if_neg hm] at h
        simp only [updateFirst, if_neg hm, get_signal_value]
        exact ih h

theorem get_updateFirst_other (signals : List Signal) (ty : SignalType)
    (name : String) (v : ℚ) (ty2 : SignalType) (name2 : String)
    (h : ¬(ty2 = ty ∧ name2 = name)) :
    get_signal_value (updateFirst signals ty name v) ty2 name2 =
      get_signal_value signals ty2 name2 := by
  induction signals with
  | nil => rfl
  | cons s rest ih =>
      by_cases hm : s.type = ty ∧ s.name = name
      · have hm2 : ¬(s.type = ty2 ∧ s.name = name2) := by
          rintro ⟨h1, h2⟩
          exact h ⟨by rw [← h1]; exact hm.1, by rw [← h2]; exact hm.2⟩
        simp only [updateFirst, if_pos hm, get_signal_value]
        rw [if_neg (by simpa using hm2), if_neg hm2]
      · simp only [updateFirst, if_neg hm, get_signal_value]
        by_cases hs : s.type = ty2 ∧ s.name = name2
        · rw [if_pos hs, if_pos hs]
        · rw [if_neg hs, if_neg hs]
          exact ih

theorem clampedAvg_le (L1 L2 : List ℚ) (hne1 : L1 ≠ []) (hne2 : L2 ≠ [])
    (hlen : L1.length = L2.length) (hsum : L1.sum ≤ L2.sum) :
    (if L1 = [] then (0 : ℚ) else min 1 (L1.sum / (L1.length : ℚ))) ≤
      (if L2 = [] then (0 : ℚ) else min 1 (L2.sum / (L2.length : ℚ))) := by
  rw [if_neg hne1, if_neg hne2]
  have hpos : (0 : ℚ) < (L2.length : ℚ) := by
    have h0 : 0 < L2.length := List.length_pos.mpr hne2
    exact_mod_cast h0
  have hcast : ((L1.length : ℚ)) = (L2.length : ℚ) := by exact_mod_cast hlen
  rw [hcast]
  exact min_le_min le_rfl ((div_le_div_iff_of_pos_right hpos).mpr hsum)

/-- C9: for a signal sequence containing one of the three pass-rate signals,
lowering the value of the first occurrence of that signal never decreases
the test risk. -/
theorem compute_test_risk_antitone (signals : List Signal) (name : String)
    (v w : ℚ)
    (hn : name = "unit_pass_rate" ∨ name = "integration_pass_rate" ∨
      name = "e2e_pass_rate")
    (hv : get_signal_value signals SignalType.TEST name = some v)
    (hw : w ≤ v) :
    compute_test_risk signals ≤
      compute_test_risk (updateFirst signals SignalType.TEST name w) := by
  rcases hn with rfl | rfl | rfl
  · have h1 := get_updateFirst_self signals SignalType.TEST "unit_pass_rate" w v hv
    have h2 := get_updateFirst_other signals SignalType.TEST "unit_pass_rate" w
      SignalType.TEST "integration_pass_rate" (by decide)
    have h3 := get_updateFirst_other signals SignalType.TEST "unit_pass_rate" w
      SignalType.TEST "e2e_pass_rate" (by decide)
    have h4 := get_updateFirst_other signals SignalType.TEST "unit_pass_rate" w
      SignalType.TEST "flaky_rate" (by decide)
    unfold compute_test_risk
    simp only [List.nil_append, h1, h2, h3, h4, hv, optTerm_some]
    apply clampedAvg_le
    · simp
    · simp
    · simp
    · simp only [List.sum_append, List.sum_cons, List.sum_nil]
      linarith
  · have h1 := get_updateFirst_self signals SignalType.TEST
      "integration_pass_rate" w v hv
    have h2 := get_updateFirst_other signals SignalType.TEST
      "integration_pass_rate" w SignalType.TEST "unit_pass_rate" (by decide)
    have h3 := get_updateFirst_other signals SignalType.TEST
      "integration_pass_rate" w SignalType.TEST "e2e_pass_rate" (by decide)
    have h4 := get_updateFirst_other signals SignalType.TEST
      "integration_pass_rate" w SignalType.TEST "flaky_rate" (by decide)
    unfold compute_test_risk
    simp only [List.nil_append, h1, h2, h3, h4, hv, optTerm_some]
    apply clampedAvg_le
    · simp
    · simp
    · simp
    · simp only [List.sum_append, List.sum_cons, List.sum_nil]
      linarith
  · have h1 := get_updateFirst_self signals SignalType.TEST "e2e_pass_rate" w v hv
    have h2 := get_updateFirst_other signals SignalType.TEST "e2e_pass_rate" w
      SignalType.TEST "unit_pass_rate" (by decide)
    have h3 := get_updateFirst_other signals SignalType.TEST "e2e_pass_rate" w
      SignalType.TEST "integration_pass_rate" (by decide)
    have h4 := get_updateFirst_other signals SignalType.TEST "e2e_pass_rate" w
      SignalType.TEST "flaky_rate" (by decide)
    unfold compute_test_risk
    simp only [List.nil_append, h1, h2, h3, h4, hv, optTerm_some]
    apply clampedAvg_le
    · simp
    · simp
    · simp
    · simp only [List.sum_append, List.sum_cons, List.sum_nil]
      linarith

/-- Witness for C9: lowering a unit pass rate of 0.9 to 0.5. -/
theorem compute_test_risk_antitone_witness :
    compute_test_risk [Signal.mk SignalType.TEST "unit_pass_rate" (some 0.9)] ≤
      compute_test_risk (updateFirst
        [Signal.mk SignalType.TEST "unit_pass_rate" (some 0.9)]
        SignalType.TEST "unit_pass_rate" 0.5) := by
  exact compute_test_risk_antitone
    [Signal.mk SignalType.TEST "unit_pass_rate" (some 0.9)]
    "unit_pass_rate" 0.9 0.5 (Or.inl rfl)
    (by simp +decide [get_signal_value]) (by norm_num)

/-- C10: the signal lookup returns the `value_num` of the first matching
signal even when that value is absent, so a first match carrying no numeric
value makes the lookup report absence; concretely, with a value-less
e2e-pass-rate signal followed by one carrying 1/2, every dependent gate
check is skipped and the test risk term is not counted. -/
theorem first_match_none_shadows (s : Signal) (rest : List Signal)
    (ty : SignalType) (name : String)
    (hty : s.type = ty) (hname : s.name = name) (hval : s.value_num = none) :
    get_signal_value (s :: rest) ty name = none ∧
    evaluate_hard_gates
        [Signal.mk SignalType.TEST "e2e_pass_rate" none,
         Signal.mk SignalType.TEST "e2e_pass_rate" (some (1/2))] none =
      Except.ok [] ∧
    compute_test_risk
        [Signal.mk SignalType.TEST "e2e_pass_rate" none,
         Signal.mk SignalType.TEST "e2e_pass_rate" (some (1/2))] = 0 := by
  refine ⟨?_, ?_, ?_⟩
  · simp [get_signal_value, hty, hname, hval]
  · simp +decide [evaluate_hard_gates, checkE2ePassRate,
      checkIntegrationPassRate, checkUnitPassRate, checkTotalTests,
      checkLineCoverage, checkCoverageDrop, get_signal_value, orDefault,
      DEFAULT_THRESHOLDS, dictGet, dictFind]
  · simp +decide [compute_test_risk, get_signal_value]

/-- Witness for C10: a value-less signal shadowing a valued one. -/
theorem first_match_none_shadows_witness :
    get_signal_value (Signal.mk SignalType.TEST "x" none ::
        [Signal.mk SignalType.TEST "x" (some 1)]) SignalType.TEST "x" =
      none := by
  exact (first_match_none_shadows (Signal.mk SignalType.TEST "x" none)
    [Signal.mk SignalType.TEST "x" (some 1)] SignalType.TEST "x"
    rfl rfl rfl).1

end ReleaseGuard
